import Mathlib

/-!
Verification of the ticket-classification service (`src/config.py`,
`src/security.py`, `src/main.py`) against its specification.

The service is a single-endpoint HTTP wrapper: request-body validation of
the ticket text, API-key authentication, per-address rate limiting, and a
schema-constrained call to an external language-model client with a bounded
retry budget.  The shallow embedding below translates the data model and the
request pipeline of the source into executable Lean definitions.  Library
behaviour that the source merely configures (the pydantic/instructor schema
validation loop, the slowapi window strategy, the framework status code for
body-validation failures) is not present under `src/`; those parts are
modelled from the specification's contracts and are marked as such in their
doc comments.
-/

namespace TicketApp

/-- Enum of ticket categories, from `class TicketCategory(str, Enum)` in
`src/main.py` (lines 89-95). -/
inductive TicketCategory where
  | order_issue
  | account_access
  | product_inquiry
  | technical_support
  | billing
  | other
deriving DecidableEq, BEq

/-- Enum of customer sentiments, from `class CustomerSentiment(str, Enum)` in
`src/main.py` (lines 98-102). -/
inductive CustomerSentiment where
  | angry
  | frustrated
  | neutral
  | satisfied
deriving DecidableEq, BEq

/-- Enum of urgency levels, from `class TicketUrgency(str, Enum)` in
`src/main.py` (lines 105-109). -/
inductive TicketUrgency where
  | low
  | medium
  | high
  | critical
deriving DecidableEq, BEq

/-- The string value of each `TicketCategory` member, as declared in the
source enum. -/
def TicketCategory.value : TicketCategory → String
  | .order_issue => "order_issue"
  | .account_access => "account_access"
  | .product_inquiry => "product_inquiry"
  | .technical_support => "technical_support"
  | .billing => "billing"
  | .other => "other"

/-- Parsing a raw string as a `TicketCategory` by its declared value, the way
pydantic coerces a JSON string into the `str`-valued enum. -/
def TicketCategory.fromString : String → Option TicketCategory
  | "order_issue" => some .order_issue
  | "account_access" => some .account_access
  | "product_inquiry" => some .product_inquiry
  | "technical_support" => some .technical_support
  | "billing" => some .billing
  | "other" => some .other
  | _ => none

/-- Parsing a raw string as a `CustomerSentiment` by its declared value. -/
def CustomerSentiment.fromString : String → Option CustomerSentiment
  | "angry" => some .angry
  | "frustrated" => some .frustrated
  | "neutral" => some .neutral
  | "satisfied" => some .satisfied
  | _ => none

/-- Parsing a raw string as a `TicketUrgency` by its declared value. -/
def TicketUrgency.fromString : String → Option TicketUrgency
  | "low" => some .low
  | "medium" => some .medium
  | "high" => some .high
  | "critical" => some .critical
  | _ => none

/-- The six declared categories. -/
def allCategories : List TicketCategory :=
  [.order_issue, .account_access, .product_inquiry, .technical_support, .billing, .other]

/-- The four declared urgency levels. -/
def allUrgencies : List TicketUrgency := [.low, .medium, .high, .critical]

/-- The four declared sentiments. -/
def allSentiments : List CustomerSentiment := [.angry, .frustrated, .neutral, .satisfied]

/-- The output data model, from `class TicketClassification(BaseModel)` in
`src/main.py` (lines 112-118).  `confidence` is declared in the source as a
float with `Field(ge=0, le=1)`; it is embedded as a rational number, the
bound being enforced by `validateTicketClassification` below, exactly as
pydantic enforces it at parse time rather than in the record type. -/
structure TicketClassification where
  category : TicketCategory
  urgency : TicketUrgency
  sentiment : CustomerSentiment
  confidence : ℚ
  key_information : List String
  suggested_action : String
deriving DecidableEq, BEq

/-- A raw model output before schema validation: each field of the
`TicketClassification` contract may be absent (`none`) or, for the enum
fields, hold an arbitrary string.  This is the domain on which pydantic
validation acts. -/
structure RawOutput where
  category : Option String
  urgency : Option String
  sentiment : Option String
  confidence : Option ℚ
  key_information : Option (List String)
  suggested_action : Option String
deriving DecidableEq, BEq

/-- Modelled from the spec: pydantic validation of a raw model output against
the `TicketClassification` contract (the pydantic library is not under
`src/`; the source only declares the field constraints at `src/main.py`
lines 112-118).  Every field must be present, the three enum fields must
parse to declared members, and `confidence` must satisfy `0 ≤ x ≤ 1`
(`Field(ge=0, le=1)`); otherwise validation fails and no value is
produced. -/
def validateTicketClassification (raw : RawOutput) : Option TicketClassification :=
  match raw.category, raw.urgency, raw.sentiment, raw.confidence,
        raw.key_information, raw.suggested_action with
  | some c, some u, some s, some conf, some ki, some sa =>
    match TicketCategory.fromString c, TicketUrgency.fromString u,
          CustomerSentiment.fromString s with
    | some cat, some urg, some sen =>
      if 0 ≤ conf ∧ conf ≤ 1 then
        some ⟨cat, urg, sen, conf, ki, sa⟩
      else
        none
    | _, _, _ => none
  | _, _, _, _, _, _ => none

/-- The request data model, from `class TicketRequest(BaseModel)` in
`src/main.py` (lines 121-122): a single `text` field. -/
structure TicketRequest where
  text : String
deriving DecidableEq, BEq

/-- Request-body validation of the `text` field, from
`Field(..., min_length=10, max_length=1000)` in `src/main.py` line 122:
the length must lie in [10, 1000] inclusive. -/
def TicketRequest.validate (text : String) : Option TicketRequest :=
  if 10 ≤ text.length ∧ text.length ≤ 1000 then some ⟨text⟩ else none

/-- The fixed system instruction `SYSTEM_PROMPT` from `src/main.py`
lines 126-146, reproduced verbatim. -/
def SYSTEM_PROMPT : String :=
  "\n" ++
  "You are an AI assistant for a large e-commerce platform\x27s customer support team. \n" ++
  "Your role is to analyze incoming customer support tickets and provide structured information to help our team respond quickly and effectively.\n" ++
  "Business Context:\n" ++
  "- We handle thousands of tickets daily across various categories (orders, accounts, products, technical issues, billing).\n" ++
  "- Quick and accurate classification is crucial for customer satisfaction and operational efficiency.\n" ++
  "- We prioritize based on urgency and customer sentiment.\n" ++
  "Your tasks:\n" ++
  "1. Categorize the ticket into the most appropriate category.\n" ++
  "2. Assess the urgency of the issue (low, medium, high, critical).\n" ++
  "3. Determine the customer\x27s sentiment.\n" ++
  "4. Extract key information that would be helpful for our support team.\n" ++
  "5. Suggest an initial action for handling the ticket.\n" ++
  "6. Provide a confidence score for your classification.\n" ++
  "Remember:\n" ++
  "- Be objective and base your analysis solely on the information provided in the ticket.\n" ++
  "- If you\x27re unsure about any aspect, reflect that in your confidence score.\n" ++
  "- For \x27key_information\x27, extract specific details like order numbers, product names, or account issues.\n" ++
  "- The \x27suggested_action\x27 should be a brief, actionable step for our support team.\n" ++
  "Analyze the following customer support ticket and provide the requested information in the specified format.\n"

/-- A chat message, the `{"role": ..., "content": ...}` dictionaries of
`src/main.py` lines 157-161. -/
structure ChatMessage where
  role : String
  content : String
deriving DecidableEq, BEq

/-- The argument record of the `client.chat.completions.create` call in
`src/main.py` lines 151-163: model identifier, the response schema (embedded
as its validation function), sampling temperature, the retry budget, and the
message list. -/
structure ChatRequest where
  model : String
  response_model : RawOutput → Option TicketClassification
  temperature : ℚ
  max_retries : ℕ
  messages : List ChatMessage

/-- The exact invocation built by `classify_ticket` in `src/main.py`
lines 151-163: model `gpt-4o-mini`, response model `TicketClassification`,
temperature 0, `max_retries=3`, and the two-message conversation of the
fixed system prompt followed by the ticket text. -/
def classifyRequest (ticket_text : String) : ChatRequest :=
  { model := "gpt-4o-mini"
    response_model := validateTicketClassification
    temperature := 0
    max_retries := 3
    messages := [⟨"system", SYSTEM_PROMPT⟩, ⟨"user", ticket_text⟩] }

/-- An external model client: for a given chat request, the sequence of
per-attempt outcomes the external model produces, each either a raised
exception (carrying its message) or a raw output to be validated. -/
def ModelClient : Type := ChatRequest → List (Except String RawOutput)

/-- The HTTPException value of the web framework as used by the source:
a status code and a detail string. -/
structure HTTPException where
  status_code : ℕ
  detail : String
deriving DecidableEq, BEq

/-- Modelled from the spec: the instructor-patched completion call (the
instructor library is not under `src/`; the source only passes
`max_retries=3` at `src/main.py` line 155).  Per the spec (§4.3, §6), each
attempt either raises (the exception propagates out of the call), returns a
raw output that validates against the schema (the call succeeds), or returns
a raw output that fails validation (another attempt is made, up to the retry
budget, after which the call fails).  Returns the result together with the
number of attempts consumed. -/
def attemptLoop : ℕ → List (Except String RawOutput) →
    (Except String TicketClassification) × ℕ
  | 0, _ => (.error "InstructorRetryException: max retries exceeded", 0)
  | _ + 1, [] => (.error "InstructorRetryException: max retries exceeded", 0)
  | n + 1, a :: rest =>
    match a with
    | .error e => (.error e, 1)
    | .ok raw =>
      match validateTicketClassification raw with
      | some tc => (.ok tc, 1)
      | none =>
        let r := attemptLoop n rest
        (r.1, r.2 + 1)

/-- The classification pipeline `classify_ticket` from `src/main.py`
lines 149-167: build the chat request, run the schema-constrained call with
its retry budget, and on success return the validated result; on any failure
log `Error classifying ticket: {e}` and raise
`HTTPException(status_code=500, detail="Error classifying ticket")`.
Returns the caller-visible result, the list of server-side log lines, and
the number of model attempts consumed. -/
def classify_ticket (client : ModelClient) (ticket_text : String) :
    (Except HTTPException TicketClassification) × List String × ℕ :=
  match attemptLoop (classifyRequest ticket_text).max_retries
      (client (classifyRequest ticket_text)) with
  | (.ok tc, calls) => (.ok tc, [], calls)
  | (.error e, calls) =>
    (.error ⟨500, "Error classifying ticket"⟩,
     ["Error classifying ticket: " ++ e], calls)

/-- Decidable equality of `Except` results, so that concrete runs of the
pipeline can be checked by evaluation. -/
instance {ε α : Type} [DecidableEq ε] [DecidableEq α] :
    DecidableEq (Except ε α) := fun a b =>
  match a, b with
  | .ok x, .ok y => decidable_of_iff (x = y) (by simp)
  | .error x, .error y => decidable_of_iff (x = y) (by simp)
  | .ok _, .error _ => isFalse (by simp)
  | .error _, .ok _ => isFalse (by simp)

/-- The settings record from `src/config.py`: the inference-provider key and
the service API key. -/
structure Settings where
  openai_api_key : String
  api_key : String
deriving DecidableEq, BEq

/-- The authenticator `authenticate_api_key` from `src/security.py`
lines 8-11: the caller-supplied header value (absent headers arrive as
`none`, since the source constructs `APIKeyHeader(..., auto_error=False)`)
is compared with `settings.api_key`; on inequality it raises
`HTTPException(status_code=403, detail="Could not validate API key")`,
otherwise it returns the supplied credential.  The function is pure: it has
no side effect. -/
def authenticate_api_key (settings : Settings) (api_key : Option String) :
    Except HTTPException String :=
  match api_key with
  | some k =>
    if k = settings.api_key then .ok k
    else .error ⟨403, "Could not validate API key"⟩
  | none => .error ⟨403, "Could not validate API key"⟩

/-- The rate string passed to the limiter decorator in `src/main.py`
line 174: `@limiter.limit("10/minute")`. -/
def limitString : String := "10/minute"

/-- Splitting a character list at the first slash, for reading the
`count/period` shape of the rate string. -/
def splitOnSlash : List Char → List Char × List Char
  | [] => ([], [])
  | c :: rest =>
    if c = '/' then ([], rest)
    else ((c :: (splitOnSlash rest).1), (splitOnSlash rest).2)

/-- Reading a decimal numeral from characters. -/
def charsToNat (cs : List Char) : ℕ :=
  cs.foldl (fun n c => n * 10 + (c.toNat - 48)) 0

/-- The quota parsed from `limitString`: the count before the slash. -/
def parsedQuota : ℕ := charsToNat (splitOnSlash limitString.data).1

/-- The window length in seconds parsed from `limitString`: `minute` means
60 seconds. -/
def parsedWindowSeconds : ℕ :=
  if (splitOnSlash limitString.data).2 = "minute".data then 60 else 0

/-- The limiter's bookkeeping: the admitted hits, each a pair of the client
key (remote address, from `Limiter(key_func=get_remote_address)` at
`src/main.py` line 64) and its arrival time in seconds. -/
abbrev LimiterState : Type := List (String × ℕ)

/-- Modelled from the spec: the number of already-admitted hits for `key`
inside the rolling 60-second window ending at `now` (the slowapi/limits
window bookkeeping is library code not under `src/`; the spec §4.2 fixes the
contract: request counts per client key over a rolling window). -/
def hitsInWindow (st : LimiterState) (key : String) (now : ℕ) : ℕ :=
  (st.filter (fun e => e.1 = key ∧ now < e.2 + parsedWindowSeconds)).length

/-- Modelled from the spec: the rolling-window admission check, quota
`10` per `60`-second window per key (spec §4.2; the source contributes the
rate string `"10/minute"` and the remote-address key function).  Admits the
request and records the hit when fewer than 10 hits for this key lie in the
window, otherwise rejects and leaves the state unchanged. -/
def limiterCheck (st : LimiterState) (key : String) (now : ℕ) :
    Bool × LimiterState :=
  if hitsInWindow st key now < parsedQuota then (true, (key, now) :: st)
  else (false, st)

/-- Modelled from the spec: the HTTP status the web framework produces for a
request-body validation failure (this handling is framework code not under
`src/`; spec §6 and §7 fix it at 400 for malformed or out-of-bounds request
bodies). -/
def validationErrorStatus : ℕ := 400

/-- An inbound HTTP request to `POST /classify_ticket`: the client's remote
address, the optional `X-API-Key` header, the optional `text` field of the
JSON body (`none` models a missing field or malformed body), and the arrival
time in seconds. -/
structure IncomingRequest where
  remote_addr : String
  api_key : Option String
  text : Option String
  time : ℕ
deriving DecidableEq, BEq

/-- The outcome of one request to `POST /classify_ticket` as the caller
sees it. -/
inductive Outcome where
  | ok (tc : TicketClassification)
  | httpExc (e : HTTPException)
  | validationError
  | rateLimited
deriving DecidableEq, BEq

/-- The HTTP status of an outcome.  `429` for a `RateLimitExceeded` is
modelled from the spec (§4.2, §7): the slowapi handler registered at
`src/main.py` line 66 is library code not under `src/`. -/
def Outcome.status : Outcome → ℕ
  | .ok _ => 200
  | .httpExc e => e.status_code
  | .validationError => validationErrorStatus
  | .rateLimited => 429

/-- The full result of processing one request: the outcome, the number of
model-client attempts consumed, the server-side log lines, and the limiter
state after the request. -/
structure StepResult where
  outcome : Outcome
  modelCalls : ℕ
  log : List String
  state : LimiterState

/-- The endpoint `api_classify_ticket` from `src/main.py` lines 173-182,
composed with the checks the source installs around it, in the
specification's request order (§2): parse/validate the body, authenticate
the `X-API-Key` header (`Depends(authenticate_api_key)`), apply the rate
limiter (`@limiter.limit("10/minute")` keyed by remote address), then run
`classify_ticket(ticket.text)` and log
`Ticket classified: {result.category}`.  Each stage short-circuits: a
failing stage produces its error outcome, consumes no model attempt, and
leaves the limiter state unchanged. -/
def api_classify_ticket (settings : Settings) (client : ModelClient)
    (st : LimiterState) (req : IncomingRequest) : StepResult :=
  match req.text with
  | none => ⟨.validationError, 0, [], st⟩
  | some t =>
    match TicketRequest.validate t with
    | none => ⟨.validationError, 0, [], st⟩
    | some ticket =>
      match authenticate_api_key settings req.api_key with
      | .error e => ⟨.httpExc e, 0, [], st⟩
      | .ok _ =>
        match limiterCheck st req.remote_addr req.time with
        | (true, st2) =>
          match classify_ticket client ticket.text with
          | (.ok tc, logLines, calls) =>
            ⟨.ok tc, calls,
             logLines ++ ["Ticket classified: " ++ tc.category.value], st2⟩
          | (.error e, logLines, calls) => ⟨.httpExc e, calls, logLines, st2⟩
        | (false, st2) => ⟨.rateLimited, 0, [], st2⟩

/-- Processing a sequence of requests in arrival order, threading the
limiter state; yields each request's outcome and model-attempt count,
and the final limiter state. -/
def runRequests (settings : Settings) (client : ModelClient) :
    LimiterState → List IncomingRequest → List (Outcome × ℕ) × LimiterState
  | st, [] => ([], st)
  | st, r :: rs =>
    let res := api_classify_ticket settings client st r
    let rest := runRequests settings client res.state rs
    ((res.outcome, res.modelCalls) :: rest.1, rest.2)

/-- The exception classes for which the source registers (or attempts to
register) application-level handlers. -/
inductive ExcClass where
  | rateLimitExceeded
  | httpException
  | generalException
deriving DecidableEq, BEq

/-- Names of the handler functions that can be placed in the application's
exception-handler table. -/
inductive HandlerTag where
  | slowapiRateLimitHandler
  | httpMessageHandler
  | generalMessageHandler
deriving DecidableEq, BEq

/-- The handler defined (under this name) at `src/main.py` lines 195-199:
replies with the exception's status code and the JSON body
`{"message": exc.detail}`. -/
def http_exception_handler (exc : HTTPException) :
    ℕ × List (String × String) :=
  (exc.status_code, [("message", exc.detail)])

/-- The handler defined at `src/main.py` lines 202-208 for arbitrary
exceptions: replies 500 with the JSON body
`{"message": "An unexpected error occurred"}`. -/
def general_exception_handler (_exc : String) :
    ℕ × List (String × String) :=
  (500, [("message", "An unexpected error occurred")])

/-- The registering decorator returned by `app.exception_handler(cls)`:
only when it is applied to a handler function does an entry enter the
table. -/
def exception_handler (handlers : List (ExcClass × HandlerTag))
    (cls : ExcClass) : HandlerTag → List (ExcClass × HandlerTag) :=
  fun tag => handlers ++ [(cls, tag)]

/-- The application's exception-handler table as built by the module-level
statements of `src/main.py`:
line 66 registers the slowapi handler for `RateLimitExceeded`;
line 192 evaluates `app.exception_handler(HTTPException)` as a bare
expression — the returned decorator is never applied to a function, so no
entry for `HTTPException` is added;
lines 202-208 apply `@app.exception_handler(Exception)` to
`general_exception_handler`. -/
def appExceptionHandlers : List (ExcClass × HandlerTag) :=
  let afterLine66 : List (ExcClass × HandlerTag) :=
    [(ExcClass.rateLimitExceeded, HandlerTag.slowapiRateLimitHandler)]
  let _discardedDecoratorLine192 :=
    exception_handler afterLine66 ExcClass.httpException
  exception_handler afterLine66 ExcClass.generalException
    HandlerTag.generalMessageHandler

/-! ## Helper lemmas -/

/-- Every category is a member of the declared enum. -/
theorem mem_allCategories (c : TicketCategory) : c ∈ allCategories := by
  cases c <;> simp [allCategories]

/-- Every urgency is a member of the declared enum. -/
theorem mem_allUrgencies (u : TicketUrgency) : u ∈ allUrgencies := by
  cases u <;> simp [allUrgencies]

/-- Every sentiment is a member of the declared enum. -/
theorem mem_allSentiments (s : CustomerSentiment) : s ∈ allSentiments := by
  cases s <;> simp [allSentiments]

/-- A value produced by schema validation satisfies the confidence bound of
the contract. -/
theorem validate_confidence {raw : RawOutput} {tc : TicketClassification}
    (h : validateTicketClassification raw = some tc) :
    0 ≤ tc.confidence ∧ tc.confidence ≤ 1 := by
  unfold validateTicketClassification at h
  repeat' split at h
  all_goals
    first
    | exact Option.noConfusion h
    | (rename_i hb
       injection h with h2
       subst h2
       exact hb)

/-- A successful run of the retry loop returns a value that passed schema
validation for one of the raw attempts. -/
theorem attemptLoop_ok {n : ℕ} {l : List (Except String RawOutput)}
    {tc : TicketClassification}
    (h : (attemptLoop n l).1 = .ok tc) :
    ∃ raw, Except.ok raw ∈ l ∧ validateTicketClassification raw = some tc := by
  induction n generalizing l with
  | zero => exact Except.noConfusion h
  | succ n ih =>
    cases l with
    | nil => exact Except.noConfusion h
    | cons a rest =>
      cases a with
      | error e => exact Except.noConfusion h
      | ok raw =>
        simp only [attemptLoop] at h
        cases hv : validateTicketClassification raw with
        | some tc2 =>
          rw [hv] at h
          injection h with h2
          subst h2
          exact ⟨raw, List.mem_cons_self _ rest, hv⟩
        | none =>
          rw [hv] at h
          obtain ⟨raw2, hmem, hval⟩ := ih (l := rest) h
          exact ⟨raw2, List.mem_cons_of_mem _ hmem, hval⟩

/-- The retry loop consumes at most its budget. -/
theorem attemptLoop_calls_le (n : ℕ) (l : List (Except String RawOutput)) :
    (attemptLoop n l).2 ≤ n := by
  induction n generalizing l with
  | zero => exact Nat.le_refl 0
  | succ n ih =>
    cases l with
    | nil => exact Nat.zero_le _
    | cons a rest =>
      cases a with
      | error e => exact Nat.succ_le_succ (Nat.zero_le n)
      | ok raw =>
        simp only [attemptLoop]
        cases hv : validateTicketClassification raw with
        | some tc => exact Nat.succ_le_succ (Nat.zero_le n)
        | none => exact Nat.succ_le_succ (ih rest)

/-- When every attempt of the model raises, the retry loop fails. -/
theorem attemptLoop_all_error {n : ℕ} {l : List (Except String RawOutput)}
    (h : ∀ a ∈ l, ∃ e, a = Except.error e) :
    ∃ e k, attemptLoop n l = (.error e, k) := by
  cases n with
  | zero => exact ⟨_, _, rfl⟩
  | succ n =>
    cases l with
    | nil => exact ⟨_, _, rfl⟩
    | cons a rest =>
      obtain ⟨e, he⟩ := h a (List.mem_cons_self a rest)
      subst he
      exact ⟨e, 1, rfl⟩

/-! ## Claim theorems -/

/-- Claim C3: the authenticator succeeds exactly when the supplied credential
equals the configured service API key, returning that credential (which then
equals the key) unchanged; on mismatch or absence it fails with
`HTTPException(403)` whose message is the fixed string
`"Could not validate API key"`, the same literal for every configured key and
credential, so nothing of the expected key flows into the error.  The
embedded `authenticate_api_key` is a pure function, so it performs no side
effect. -/
theorem authenticate_api_key_spec (settings : Settings) (cred : Option String) :
    authenticate_api_key settings cred =
      (if cred = some settings.api_key then Except.ok settings.api_key
       else Except.error ⟨403, "Could not validate API key"⟩) := by
  unfold authenticate_api_key
  cases cred with
  | none => simp
  | some k =>
    by_cases hk : k = settings.api_key
    · subst hk
      simp
    · simp [hk]

/-- Claim C7: whenever the schema-constrained call fails — the retry budget
exhausted or the underlying model call raising any exception `e` — the
pipeline returns `HTTPException(500, "Error classifying ticket")`, a generic
constant independent of `e`; the original exception text appears only in the
server-side log line `Error classifying ticket: {e}`, never in the value
returned to the caller. -/
theorem classify_ticket_failure_masking (client : ModelClient) (text : String)
    (e : String) (k : ℕ)
    (h : attemptLoop (classifyRequest text).max_retries
      (client (classifyRequest text)) = (.error e, k)) :
    classify_ticket client text =
      (.error ⟨500, "Error classifying ticket"⟩,
       ["Error classifying ticket: " ++ e], k) := by
  unfold classify_ticket
  rw [h]

/-- Witness for C7: a client raising a network error on its only attempt
yields exactly the constant 500 error, with the cause only in the log. -/
theorem classify_ticket_failure_masking_witness :
    classify_ticket (fun _ => [Except.error "APIConnectionError: network is down"])
      "My order #12345 never arrived and I want a refund!" =
      (.error ⟨500, "Error classifying ticket"⟩,
       ["Error classifying ticket: APIConnectionError: network is down"], 1) :=
  classify_ticket_failure_masking
    (fun _ => [Except.error "APIConnectionError: network is down"])
    "My order #12345 never arrived and I want a refund!"
    "APIConnectionError: network is down" 1 (by decide)

/-- Claim C8: the pipeline invokes the external model exactly with the fixed
argument record `classifyRequest text`: temperature 0 (deterministic
sampling), the `TicketClassification` schema as the required response model,
a retry budget of 3 attempts, and the two-message conversation of the fixed
system instruction followed by the ticket text; the pipeline's result depends
on the client's behaviour only at that one request, and it never consumes
more than the 3-attempt budget. -/
theorem classify_invocation_parameters (text : String) (c1 c2 : ModelClient)
    (h : c1 (classifyRequest text) = c2 (classifyRequest text)) :
    (classifyRequest text).temperature = 0 ∧
    (classifyRequest text).max_retries = 3 ∧
    (classifyRequest text).response_model = validateTicketClassification ∧
    (classifyRequest text).messages =
      [⟨"system", SYSTEM_PROMPT⟩, ⟨"user", text⟩] ∧
    (classifyRequest text).model = "gpt-4o-mini" ∧
    classify_ticket c1 text = classify_ticket c2 text ∧
    (classify_ticket c1 text).2.2 ≤ 3 := by
  refine ⟨rfl, rfl, rfl, rfl, rfl, ?_, ?_⟩
  · unfold classify_ticket
    rw [h]
  · unfold classify_ticket
    have hle : (attemptLoop (classifyRequest text).max_retries
        (c1 (classifyRequest text))).2 ≤ 3 :=
      attemptLoop_calls_le 3 (c1 (classifyRequest text))
    split
    all_goals rename_i heq
    all_goals rw [heq] at hle
    all_goals exact hle

/-- Witness for C8 at a concrete ticket text and two clients that agree on
the request actually sent. -/
theorem classify_invocation_parameters_witness :
    (classifyRequest "Where is my package?").temperature = 0 ∧
    (classifyRequest "Where is my package?").max_retries = 3 ∧
    (classifyRequest "Where is my package?").response_model =
      validateTicketClassification ∧
    (classifyRequest "Where is my package?").messages =
      [⟨"system", SYSTEM_PROMPT⟩, ⟨"user", "Where is my package?"⟩] ∧
    (classifyRequest "Where is my package?").model = "gpt-4o-mini" ∧
    classify_ticket (fun _ => []) "Where is my package?" =
      classify_ticket (fun _ => []) "Where is my package?" ∧
    (classify_ticket (fun _ => []) "Where is my package?").2.2 ≤ 3 :=
  classify_invocation_parameters "Where is my package?"
    (fun _ => []) (fun _ => []) rfl

/-- Claim C10: for any two executions in which the model client raises on
every attempt — whatever the exceptions are — the caller-visible value is the
same: `Except.error (HTTPException 500 "Error classifying ticket")`.  The
underlying cause does not flow into the caller-visible output, so the caller
cannot distinguish retry exhaustion from network or provider errors. -/
theorem classify_ticket_error_uniform (c1 c2 : ModelClient) (t1 t2 : String)
    (h1 : ∀ a ∈ c1 (classifyRequest t1), ∃ e, a = Except.error e)
    (h2 : ∀ a ∈ c2 (classifyRequest t2), ∃ e, a = Except.error e) :
    (classify_ticket c1 t1).1 =
      Except.error ⟨500, "Error classifying ticket"⟩ ∧
    (classify_ticket c2 t2).1 =
      Except.error ⟨500, "Error classifying ticket"⟩ ∧
    (classify_ticket c1 t1).1 = (classify_ticket c2 t2).1 := by
  obtain ⟨e1, k1, hk1⟩ :=
    attemptLoop_all_error (n := (classifyRequest t1).max_retries) h1
  obtain ⟨e2, k2, hk2⟩ :=
    attemptLoop_all_error (n := (classifyRequest t2).max_retries) h2
  have g1 : (classify_ticket c1 t1).1 =
      Except.error ⟨500, "Error classifying ticket"⟩ := by
    unfold classify_ticket
    rw [hk1]
  have g2 : (classify_ticket c2 t2).1 =
      Except.error ⟨500, "Error classifying ticket"⟩ := by
    unfold classify_ticket
    rw [hk2]
  exact ⟨g1, g2, g1.trans g2.symm⟩

/-- Witness for C10: two clients raising different exceptions (a timeout on
one attempt; a rate-limit error then a provider error) are indistinguishable
to the caller. -/
theorem classify_ticket_error_uniform_witness :
    (classify_ticket (fun _ => [Except.error "APITimeoutError"])
        "Where is my package?").1 =
      Except.error ⟨500, "Error classifying ticket"⟩ ∧
    (classify_ticket
        (fun _ => [Except.error "RateLimitError", Except.error "InternalServerError"])
        "I was double charged on my last invoice.").1 =
      Except.error ⟨500, "Error classifying ticket"⟩ ∧
    (classify_ticket (fun _ => [Except.error "APITimeoutError"])
        "Where is my package?").1 =
      (classify_ticket
        (fun _ => [Except.error "RateLimitError", Except.error "InternalServerError"])
        "I was double charged on my last invoice.").1 :=
  classify_ticket_error_uniform
    (fun _ => [Except.error "APITimeoutError"])
    (fun _ => [Except.error "RateLimitError", Except.error "InternalServerError"])
    "Where is my package?" "I was double charged on my last invoice."
    (by intro a ha; rw [List.mem_singleton] at ha; exact ⟨"APITimeoutError", ha⟩)
    (by
      intro a ha
      rcases List.mem_cons.mp ha with h | h
      · exact ⟨"RateLimitError", h⟩
      · rw [List.mem_singleton] at h
        exact ⟨"InternalServerError", h⟩)

/-- Claim C1: every `TicketClassification` the pipeline returns to the caller
satisfies every field constraint of the data model: the three enum fields are
members of their declared enums, `0 ≤ confidence ≤ 1`, `key_information` is a
(possibly empty) list of strings and `suggested_action` a string (by the
record type), and the value arose from full schema validation of a raw model
output — so no partial result lacking a field is ever returned. -/
theorem classify_ticket_output_valid (client : ModelClient) (text : String)
    (tc : TicketClassification) (logLines : List String) (calls : ℕ)
    (h : classify_ticket client text = (.ok tc, logLines, calls)) :
    tc.category ∈ allCategories ∧ tc.urgency ∈ allUrgencies ∧
    tc.sentiment ∈ allSentiments ∧
    (0 ≤ tc.confidence ∧ tc.confidence ≤ 1) ∧
    ∃ raw, Except.ok raw ∈ client (classifyRequest text) ∧
      validateTicketClassification raw = some tc := by
  have hok : (attemptLoop (classifyRequest text).max_retries
      (client (classifyRequest text))).1 = .ok tc := by
    unfold classify_ticket at h
    split at h
    all_goals rename_i heq
    · injection h with h1 h2
      injection h1 with h1a
      rw [heq]
      rw [h1a]
    · injection h with h1 h2
      exact absurd h1 (by simp)
  obtain ⟨raw, hmem, hval⟩ := attemptLoop_ok hok
  exact ⟨mem_allCategories _, mem_allUrgencies _, mem_allSentiments _,
    validate_confidence hval, raw, hmem, hval⟩

/-- A raw model output satisfying the whole contract, used as concrete
witness data. -/
def goodRaw : RawOutput :=
  { category := some "order_issue"
    urgency := some "high"
    sentiment := some "frustrated"
    confidence := some (mkRat 9 10)
    key_information := some ["12345"]
    suggested_action := some "Process a refund for order #12345"
    }

/-- A model client answering every request with `goodRaw` on the first
attempt. -/
def goodClient : ModelClient := fun _ => [Except.ok goodRaw]

/-- The classification that validating `goodRaw` yields. -/
def goodTC : TicketClassification :=
  { category := .order_issue
    urgency := .high
    sentiment := .frustrated
    confidence := mkRat 9 10
    key_information := ["12345"]
    suggested_action := "Process a refund for order #12345"
    }

/-- Witness for C1: a concrete successful run returns a value satisfying all
field constraints. -/
theorem classify_ticket_output_valid_witness :
    goodTC.category ∈ allCategories ∧ goodTC.urgency ∈ allUrgencies ∧
    goodTC.sentiment ∈ allSentiments ∧
    (0 ≤ goodTC.confidence ∧ goodTC.confidence ≤ 1) ∧
    ∃ raw, Except.ok raw ∈ goodClient
        (classifyRequest "My order #12345 never arrived and I want a refund!") ∧
      validateTicketClassification raw = some goodTC :=
  classify_ticket_output_valid goodClient
    "My order #12345 never arrived and I want a refund!"
    goodTC [] 1 (by decide)

/-- A request whose body text passes length validation never produces the
validation-error outcome: the pipeline proceeds to authentication and
beyond. -/
theorem api_valid_not_validationError (settings : Settings)
    (client : ModelClient) (st : LimiterState) (addr : String)
    (key : Option String) (time : ℕ) (t : String)
    (hlen : 10 ≤ t.length ∧ t.length ≤ 1000) :
    (api_classify_ticket settings client st ⟨addr, key, some t, time⟩).outcome ≠
      Outcome.validationError := by
  simp only [api_classify_ticket, TicketRequest.validate, if_pos hlen]
  cases hk : authenticate_api_key settings key with
  | error e => simp
  | ok v =>
    cases hlim : limiterCheck st addr time with
    | mk admitted st2 =>
      cases admitted with
      | true =>
        rcases hcl : classify_ticket client t with ⟨res, logLines, calls⟩
        cases res <;> simp
      | false => simp

/-- Claim C2: for a request whose body carries a `text` field, the request is
rejected by body validation exactly when the length of `text` lies outside
[10, 1000]; the rejection produces the validation-error outcome (HTTP 400
per the spec contract for the framework's body validation) and happens
before the pipeline runs, so the model client is never invoked; texts with
length in [10, 1000] inclusive pass this validation.  (In the embedded flow
the body is validated first, per the request order of spec §2, so the other
checks cannot pre-empt it.) -/
theorem ticket_text_validation (settings : Settings) (client : ModelClient)
    (st : LimiterState) (req : IncomingRequest) (t : String)
    (h : req.text = some t) :
    ((api_classify_ticket settings client st req).outcome =
        Outcome.validationError ↔ ¬(10 ≤ t.length ∧ t.length ≤ 1000)) ∧
    ((api_classify_ticket settings client st req).outcome =
        Outcome.validationError →
      (api_classify_ticket settings client st req).modelCalls = 0) ∧
    Outcome.validationError.status = 400 := by
  obtain ⟨addr, key, txt, time⟩ := req
  simp only [IncomingRequest.text] at h
  subst h
  by_cases hlen : 10 ≤ t.length ∧ t.length ≤ 1000
  · have hne := api_valid_not_validationError settings client st addr key time t hlen
    exact ⟨⟨fun hout => absurd hout hne, fun hc => absurd hlen hc⟩,
      fun hout => absurd hout hne, rfl⟩
  · simp only [api_classify_ticket, TicketRequest.validate, if_neg hlen]
    refine ⟨⟨fun _ => hlen, fun _ => ?_⟩, fun _ => ?_, ?_⟩ <;>
      first | exact True.intro | rfl

/-- Witness for C2 at a 5-character text: the request is rejected by
validation with status 400 and the model client is not invoked. -/
theorem ticket_text_validation_witness :
    ((api_classify_ticket ⟨"sk-123", "service-secret"⟩ goodClient []
        ⟨"203.0.113.7", some "service-secret", some "short", 0⟩).outcome =
      Outcome.validationError ↔
        ¬(10 ≤ "short".length ∧ "short".length ≤ 1000)) ∧
    ((api_classify_ticket ⟨"sk-123", "service-secret"⟩ goodClient []
        ⟨"203.0.113.7", some "service-secret", some "short", 0⟩).outcome =
      Outcome.validationError →
      (api_classify_ticket ⟨"sk-123", "service-secret"⟩ goodClient []
        ⟨"203.0.113.7", some "service-secret", some "short", 0⟩).modelCalls = 0) ∧
    Outcome.validationError.status = 400 :=
  ticket_text_validation ⟨"sk-123", "service-secret"⟩ goodClient []
    ⟨"203.0.113.7", some "service-secret", some "short", 0⟩ "short" rfl

/-- Claim C4: a request to the endpoint whose body passes validation but
which lacks an API key or presents one different from the configured service
key gets the 403 `HTTPException` with the fixed authentication message, and
the model client is never invoked, so no external API cost is incurred.  (A
request whose body also fails validation is rejected by body validation even
earlier — spec §2 order — and likewise never reaches the model.) -/
theorem unauthorized_request (settings : Settings) (client : ModelClient)
    (st : LimiterState) (req : IncomingRequest) (t : String)
    (hbody : req.text = some t)
    (hlen : 10 ≤ t.length ∧ t.length ≤ 1000)
    (hkey : req.api_key ≠ some settings.api_key) :
    (api_classify_ticket settings client st req).outcome =
      Outcome.httpExc ⟨403, "Could not validate API key"⟩ ∧
    (api_classify_ticket settings client st req).outcome.status = 403 ∧
    (api_classify_ticket settings client st req).modelCalls = 0 := by
  obtain ⟨addr, key, txt, time⟩ := req
  simp only [IncomingRequest.text] at hbody
  simp only [IncomingRequest.api_key] at hkey
  subst hbody
  have hauth : authenticate_api_key settings key =
      Except.error ⟨403, "Could not validate API key"⟩ := by
    rw [authenticate_api_key_spec]
    rw [if_neg hkey]
  simp only [api_classify_ticket, TicketRequest.validate, if_pos hlen, hauth]
  refine ⟨?_, ?_, ?_⟩ <;> first | exact True.intro | rfl

/-- Witness for C4: a wrong key on a well-formed body yields 403 and zero
model invocations. -/
theorem unauthorized_request_witness :
    (api_classify_ticket ⟨"sk-123", "service-secret"⟩ goodClient []
        ⟨"203.0.113.7", some "wrong-key",
         some "My order #12345 never arrived and I want a refund!", 0⟩).outcome =
      Outcome.httpExc ⟨403, "Could not validate API key"⟩ ∧
    (api_classify_ticket ⟨"sk-123", "service-secret"⟩ goodClient []
        ⟨"203.0.113.7", some "wrong-key",
         some "My order #12345 never arrived and I want a refund!", 0⟩).outcome.status = 403 ∧
    (api_classify_ticket ⟨"sk-123", "service-secret"⟩ goodClient []
        ⟨"203.0.113.7", some "wrong-key",
         some "My order #12345 never arrived and I want a refund!", 0⟩).modelCalls = 0 :=
  unauthorized_request ⟨"sk-123", "service-secret"⟩ goodClient []
    ⟨"203.0.113.7", some "wrong-key",
     some "My order #12345 never arrived and I want a refund!", 0⟩
    "My order #12345 never arrived and I want a refund!" rfl
    (by decide) (by decide)

/-! ## Rate-limiter lemmas -/

/-- The number of recorded hits of a client key, over the whole state. -/
def addrHits (st : LimiterState) (a : String) : ℕ :=
  st.countP (fun e => e.1 == a)

/-- The number of requests in a list carrying a given remote address. -/
def addrRequests (reqs : List IncomingRequest) (a : String) : ℕ :=
  reqs.countP (fun r => r.remote_addr == a)

/-- The quota of `"10/minute"` is 10 requests. -/
theorem parsedQuota_eq : parsedQuota = 10 := by decide

/-- The window of `"10/minute"` is 60 seconds. -/
theorem parsedWindowSeconds_eq : parsedWindowSeconds = 60 := by decide

/-- When every recorded hit is for `addr` and no older than `T`, and `now`
lies before `T + 60`, the whole state is inside the window. -/
theorem hitsInWindow_all {st : LimiterState} {addr : String} {T now : ℕ}
    (hinv : ∀ e ∈ st, e.1 = addr ∧ T ≤ e.2) (hnow : now < T + 60) :
    hitsInWindow st addr now = st.length := by
  unfold hitsInWindow
  rw [List.filter_eq_self.mpr]
  intro e he
  obtain ⟨h1, h2⟩ := hinv e he
  have h3 : now < e.2 + parsedWindowSeconds := by
    rw [parsedWindowSeconds_eq]
    omega
  simp [h1, h3]

/-- Hits inside the window never exceed all recorded hits of the key. -/
theorem hitsInWindow_le_addrHits (st : LimiterState) (a : String) (now : ℕ) :
    hitsInWindow st a now ≤ addrHits st a := by
  unfold hitsInWindow addrHits
  rw [← List.countP_eq_length_filter]
  apply List.countP_mono_left
  intro e _ hp
  simp only [decide_eq_true_eq] at hp
  simp [hp.1]

/-- A valid same-key request under quota is admitted: the outcome is not
rate-limited and the hit is recorded. -/
theorem api_valid_admitted (settings : Settings) (client : ModelClient)
    (st : LimiterState) (addr : String) (time : ℕ) (t : String)
    (hlen : 10 ≤ t.length ∧ t.length ≤ 1000)
    (hadm : hitsInWindow st addr time < parsedQuota) :
    (api_classify_ticket settings client st
        ⟨addr, some settings.api_key, some t, time⟩).outcome ≠
      Outcome.rateLimited ∧
    (api_classify_ticket settings client st
        ⟨addr, some settings.api_key, some t, time⟩).state = (addr, time) :: st := by
  have hauth : authenticate_api_key settings (some settings.api_key) =
      Except.ok settings.api_key := by
    rw [authenticate_api_key_spec]
    rw [if_pos rfl]
  have hlim : limiterCheck st addr time = (true, (addr, time) :: st) := by
    unfold limiterCheck
    rw [if_pos hadm]
  simp only [api_classify_ticket, TicketRequest.validate, if_pos hlen, hauth, hlim]
  rcases hcl : classify_ticket client t with ⟨res, logLines, calls⟩
  cases res <;> exact ⟨by simp, rfl⟩

/-- A valid same-key request over quota is rejected: rate-limited outcome,
no model call, state unchanged. -/
theorem api_valid_rejected (settings : Settings) (client : ModelClient)
    (st : LimiterState) (addr : String) (time : ℕ) (t : String)
    (hlen : 10 ≤ t.length ∧ t.length ≤ 1000)
    (hadm : ¬ hitsInWindow st addr time < parsedQuota) :
    api_classify_ticket settings client st
        ⟨addr, some settings.api_key, some t, time⟩ =
      ⟨Outcome.rateLimited, 0, [], st⟩ := by
  have hauth : authenticate_api_key settings (some settings.api_key) =
      Except.ok settings.api_key := by
    rw [authenticate_api_key_spec]
    rw [if_pos rfl]
  have hlim : limiterCheck st addr time = (false, st) := by
    unfold limiterCheck
    rw [if_neg hadm]
  simp only [api_classify_ticket, TicketRequest.validate, if_pos hlen, hauth, hlim]

/-- The runner produces one result per request. -/
theorem runRequests_length (settings : Settings) (client : ModelClient) :
    ∀ (reqs : List IncomingRequest) (st : LimiterState),
      (runRequests settings client st reqs).1.length = reqs.length
  | [], _ => rfl
  | r :: rs, st => by
    simp [runRequests, runRequests_length settings client rs
      (api_classify_ticket settings client st r).state]

/-- Same-address runs: starting from a state whose hits all belong to `addr`
and are no older than `T`, with every request valid, same-keyed, and timed
inside `[T, T + 60)`, the `i`-th request is rate-limited exactly when the
prior hit count `st.length + i` has reached 10, and a rate-limited request
consumes no model attempt. -/
theorem runRequests_sameAddr (settings : Settings) (client : ModelClient)
    (addr t : String) (T : ℕ)
    (hlen : 10 ≤ t.length ∧ t.length ≤ 1000) :
    ∀ (times : List ℕ) (st : LimiterState),
      (∀ e ∈ st, e.1 = addr ∧ T ≤ e.2) →
      (∀ s ∈ times, T ≤ s ∧ s < T + 60) →
      ∀ i p,
        ((runRequests settings client st
            (times.map (fun s => ⟨addr, some settings.api_key, some t, s⟩))).1.get? i
          = some p) →
        (p.1 = Outcome.rateLimited ↔ 10 ≤ st.length + i) ∧
        (p.1 = Outcome.rateLimited → p.2 = 0)
  | [], st, _, _, i, p, hp => by
    simp [runRequests] at hp
  | s :: rest, st, hinv, htimes, i, p, hp => by
    obtain ⟨hT, hlt⟩ := htimes s (List.mem_cons_self s rest)
    by_cases hadm : hitsInWindow st addr s < parsedQuota
    · obtain ⟨hout, hstate⟩ :=
        api_valid_admitted settings client st addr s t hlen hadm
      have hfull : hitsInWindow st addr s = st.length := hitsInWindow_all hinv hlt
      have hlt10 : st.length < 10 := by
        rw [parsedQuota_eq] at hadm
        omega
      cases i with
      | zero =>
        simp only [List.map_cons, runRequests, List.get?_cons_zero] at hp
        injection hp with hp
        subst hp
        exact ⟨⟨fun hcon => absurd hcon hout, fun hge => absurd hge (by omega)⟩,
          fun hcon => absurd hcon hout⟩
      | succ j =>
        simp only [List.map_cons, runRequests, List.get?_cons_succ] at hp
        rw [hstate] at hp
        have hinv2 : ∀ e ∈ (addr, s) :: st, e.1 = addr ∧ T ≤ e.2 := by
          intro e he
          rcases List.mem_cons.mp he with he | he
          · subst he
            exact ⟨rfl, hT⟩
          · exact hinv e he
        have htimes2 : ∀ u ∈ rest, T ≤ u ∧ u < T + 60 := fun u hu =>
          htimes u (List.mem_cons_of_mem _ hu)
        obtain ⟨ih1, ih2⟩ := runRequests_sameAddr settings client addr t T hlen
          rest ((addr, s) :: st) hinv2 htimes2 j p hp
        have hlc : ((addr, s) :: st : LimiterState).length = st.length + 1 := rfl
        rw [hlc] at ih1
        refine ⟨⟨fun h => by have := ih1.mp h; omega,
          fun h => ih1.mpr (by omega)⟩, ih2⟩
    · have heq := api_valid_rejected settings client st addr s t hlen hadm
      have hfull : hitsInWindow st addr s = st.length := hitsInWindow_all hinv hlt
      have hge10 : 10 ≤ st.length := by
        rw [parsedQuota_eq] at hadm
        omega
      cases i with
      | zero =>
        simp only [List.map_cons, runRequests, heq, List.get?_cons_zero] at hp
        injection hp with hp
        subst hp
        exact ⟨⟨fun _ => by omega, fun _ => rfl⟩, fun _ => rfl⟩
      | succ j =>
        simp only [List.map_cons, runRequests, heq, List.get?_cons_succ] at hp
        have htimes2 : ∀ u ∈ rest, T ≤ u ∧ u < T + 60 := fun u hu =>
          htimes u (List.mem_cons_of_mem _ hu)
        obtain ⟨ih1, ih2⟩ := runRequests_sameAddr settings client addr t T hlen
          rest st hinv htimes2 j p hp
        exact ⟨⟨fun _ => by omega, fun _ => ih1.mpr (by omega)⟩, ih2⟩

/-- Runs in which every address stays within quota (counting both pending
requests and already-recorded hits) are never rate-limited. -/
theorem runRequests_under_quota (settings : Settings) (client : ModelClient)
    (t : String) (hlen : 10 ≤ t.length ∧ t.length ≤ 1000) :
    ∀ (reqs : List IncomingRequest) (st : LimiterState),
      (∀ r ∈ reqs, r.api_key = some settings.api_key ∧ r.text = some t) →
      (∀ a : String, addrRequests reqs a + addrHits st a ≤ 10) →
      ∀ p ∈ (runRequests settings client st reqs).1, p.1 ≠ Outcome.rateLimited
  | [], st, _, _, p, hp => by
    simp [runRequests] at hp
  | r :: rest, st, hvalid, hquota, p, hp => by
    obtain ⟨hk, ht⟩ := hvalid r (List.mem_cons_self r rest)
    obtain ⟨addr, key, txt, time⟩ := r
    simp only [IncomingRequest.api_key] at hk
    simp only [IncomingRequest.text] at ht
    subst hk
    subst ht
    have h1 : 1 ≤ addrRequests
        (⟨addr, some settings.api_key, some t, time⟩ :: rest) addr := by
      unfold addrRequests
      rw [List.countP_cons]
      simp
    have hq := hquota addr
    have hhits : hitsInWindow st addr time ≤ addrHits st addr :=
      hitsInWindow_le_addrHits st addr time
    have hadm : hitsInWindow st addr time < parsedQuota := by
      rw [parsedQuota_eq]
      omega
    obtain ⟨hout, hstate⟩ :=
      api_valid_admitted settings client st addr time t hlen hadm
    simp only [runRequests] at hp
    rcases List.mem_cons.mp hp with hhead | htail
    · subst hhead
      exact hout
    · rw [hstate] at htail
      refine runRequests_under_quota settings client t hlen rest
        ((addr, time) :: st) ?_ ?_ p htail
      · intro r2 hr2
        exact hvalid r2 (List.mem_cons_of_mem _ hr2)
      · intro a
        have hqa := hquota a
        simp only [addrRequests, addrHits, List.countP_cons] at hqa ⊢
        by_cases haa : (addr == a) <;> simp [haa] at hqa ⊢ <;> omega

/-- Claim C5: per-address rolling-window rate limiting at 10 requests per 60
seconds.  First part: 11 valid same-key requests from one address, all timed
inside one 60-second window `[T, T + 60)`, starting from a fresh limiter:
each of the first ten is admitted (its outcome is not rate-limited) and the
eleventh yields the rate-limited outcome (HTTP 429) with zero model-client
attempts — i.e. before the classification pipeline runs.  Second part: the
same number of valid requests spread over two distinct addresses with at
most ten requests each are all admitted. -/
theorem rate_limiter_rolling_window :
    (∀ (settings : Settings) (client : ModelClient) (addr t : String)
       (T : ℕ) (times : List ℕ),
       10 ≤ t.length ∧ t.length ≤ 1000 →
       times.length = 11 →
       (∀ s ∈ times, T ≤ s ∧ s < T + 60) →
       (∀ i, i < 10 → ∀ p,
         ((runRequests settings client []
             (times.map (fun s => ⟨addr, some settings.api_key, some t, s⟩))).1.get? i
           = some p) → p.1 ≠ Outcome.rateLimited) ∧
       ((runRequests settings client []
           (times.map (fun s => ⟨addr, some settings.api_key, some t, s⟩))).1.get? 10
         = some (Outcome.rateLimited, 0)) ∧
       Outcome.rateLimited.status = 429) ∧
    (∀ (settings : Settings) (client : ModelClient) (t a b : String)
       (reqs : List IncomingRequest),
       10 ≤ t.length ∧ t.length ≤ 1000 →
       a ≠ b →
       reqs.length = 11 →
       (∀ r ∈ reqs, (r.remote_addr = a ∨ r.remote_addr = b) ∧
         r.api_key = some settings.api_key ∧ r.text = some t) →
       addrRequests reqs a ≤ 10 →
       addrRequests reqs b ≤ 10 →
       ∀ p ∈ (runRequests settings client [] reqs).1,
         p.1 ≠ Outcome.rateLimited) := by
  constructor
  · intro settings client addr t T times hlen hlen11 htimes
    have hinv : ∀ e ∈ ([] : LimiterState), e.1 = addr ∧ T ≤ e.2 := by
      intro e he
      cases he
    have hcore := runRequests_sameAddr settings client addr t T hlen times []
      hinv htimes
    have hlenrun : (runRequests settings client []
        (times.map (fun s => ⟨addr, some settings.api_key, some t, s⟩))).1.length
        = 11 := by
      rw [runRequests_length, List.length_map, hlen11]
    refine ⟨?_, ?_, rfl⟩
    · intro i hi p hp
      intro hcon
      have := (hcore i p hp).1.mp hcon
      simp only [List.length_nil] at this
      omega
    · have h10 : 10 < (runRequests settings client []
          (times.map (fun s => ⟨addr, some settings.api_key, some t, s⟩))).1.length := by
        omega
      have hget := List.get?_eq_get h10
      obtain ⟨hiff, himp⟩ := hcore 10 _ hget
      have hp1 := hiff.mpr (by simp)
      have hp2 := himp hp1
      rw [hget]
      rcases hpair : (runRequests settings client []
          (times.map (fun s => ⟨addr, some settings.api_key, some t, s⟩))).1.get
          ⟨10, h10⟩ with ⟨o, c⟩
      rw [hpair] at hp1 hp2
      simp only at hp1 hp2
      rw [hp1, hp2]
  · intro settings client t a b reqs hlen hab hlen11 hform hca hcb
    refine runRequests_under_quota settings client t hlen reqs [] ?_ ?_
    · intro r hr
      exact (hform r hr).2
    · intro c
      have hst : addrHits ([] : LimiterState) c = 0 := rfl
      rw [hst]
      by_cases hac : c = a
      · subst hac
        omega
      · by_cases hbc : c = b
        · subst hbc
          omega
        · have hz : addrRequests reqs c = 0 := by
            unfold addrRequests
            rw [List.countP_eq_zero]
            intro r hr
            rcases (hform r hr).1 with h | h <;>
              simp [h, Ne.symm hac, Ne.symm hbc]
          omega

/-- Witness for C5, first part, at a fresh limiter: 11 valid requests from
one address at seconds 0..10 — the first ten are admitted, the eleventh is
rate-limited with zero model calls. -/
theorem rate_limiter_rolling_window_witness :
    (∀ i, i < 10 → ∀ p,
      ((runRequests ⟨"sk-123", "service-secret"⟩ goodClient []
          ((List.range 11).map (fun s =>
            ⟨"203.0.113.7", some "service-secret",
             some "My order #12345 never arrived and I want a refund!", s⟩))).1.get? i
        = some p) → p.1 ≠ Outcome.rateLimited) ∧
    ((runRequests ⟨"sk-123", "service-secret"⟩ goodClient []
        ((List.range 11).map (fun s =>
          ⟨"203.0.113.7", some "service-secret",
           some "My order #12345 never arrived and I want a refund!", s⟩))).1.get? 10
      = some (Outcome.rateLimited, 0)) ∧
    Outcome.rateLimited.status = 429 :=
  rate_limiter_rolling_window.1 ⟨"sk-123", "service-secret"⟩ goodClient
    "203.0.113.7" "My order #12345 never arrived and I want a refund!" 0
    (List.range 11) (by decide) (by decide) (by decide)

/-- Claim C9 (code bug): declared application errors should map to their
status codes with a `{message: ...}` body.  The statuses are right, and the
handler defined at `src/main.py` lines 195-199 would produce exactly the
`{"message": ...}` body for the auth-failure and classification-failure
exceptions — but the module-level table built by the source contains no
entry for `HTTPException`, because line 192 evaluates
`app.exception_handler(HTTPException)` without applying the returned
decorator; only the slowapi rate-limit handler and the generic `Exception`
handler are registered.  So the framework's default `HTTPException` handler
answers instead, and the `{message: ...}` body contract of the claim is not
met by the code as written. -/
theorem http_exception_handler_unregistered :
    appExceptionHandlers.lookup ExcClass.httpException = none ∧
    appExceptionHandlers =
      [(ExcClass.rateLimitExceeded, HandlerTag.slowapiRateLimitHandler),
       (ExcClass.generalException, HandlerTag.generalMessageHandler)] ∧
    http_exception_handler ⟨403, "Could not validate API key"⟩ =
      (403, [("message", "Could not validate API key")]) ∧
    http_exception_handler ⟨500, "Error classifying ticket"⟩ =
      (500, [("message", "Error classifying ticket")]) :=
  ⟨rfl, rfl, rfl, rfl⟩

end TicketApp
